import Mathlib

/-!
Verification development for the `tg-content-assistant` bot
(`src/bot/main.py`, `src/bot/db.py`).

Python strings are modelled as `List Char`; the relational store
(`users` / `drafts` tables of `src/bot/db.py`) as in-memory lists with
explicit primary-key counters; the aiogram FSM session as a state tag plus
a scratchpad record; and the aiogram dispatcher as the ordered list of
registered message-handler filters with first-match selection, exactly in
the registration (file) order of `src/bot/main.py`.
-/

namespace TgContent

/-- Python `str` modelled as a list of characters. -/
abbrev Str := List Char

/-- Python `str.strip()`: drop whitespace from both ends. -/
def strip (s : Str) : Str :=
  ((s.dropWhile Char.isWhitespace).reverse.dropWhile Char.isWhitespace).reverse

/-- Python `str.lower()` (ASCII approximation, enough for `"/cancel"`). -/
def lower (s : Str) : Str := s.map Char.toLower

/-- Python `str.isdigit()`: non-empty and all digits. -/
def isDigits (s : Str) : Bool := !s.isEmpty && s.all Char.isDigit

/-- Python `int(text)` on a digit string. -/
def natOfDigits (s : Str) : Nat :=
  s.foldl (fun n c => 10 * n + (c.toNat - '0'.toNat)) 0

/-- Split off everything before the first occurrence of `sep`;
`none` when `sep` does not occur. -/
def splitFirst (sep : Char) : Str → Option (Str × Str)
  | [] => none
  | a :: as =>
    if a = sep then some ([], as)
    else
      match splitFirst sep as with
      | none => none
      | some (l, r) => some (a :: l, r)

/-- Python `text.split(sep, maxsplit)`: split on `sep` at most `n` times;
the final field keeps any remaining separators. -/
def splitAtMost (sep : Char) : Nat → Str → List Str
  | 0, s => [s]
  | n + 1, s =>
    match splitFirst sep s with
    | none => [s]
    | some (l, r) => l :: splitAtMost sep n r

-- ---------- Media codec (src/bot/main.py) ----------

/-- The decoded media draft dictionary returned by `parse_media_draft`. -/
structure MediaInfo where
  type : Str
  file_id : Str
  caption : Str
  deriving DecidableEq, Repr

/-- The sentinel prefix of an encoded media draft. -/
def mediaSentinel : Str := ("MEDIA|".toList)

/-- `parse_media_draft` (src/bot/main.py lines 1471-1486): storage format
`MEDIA|type|file_id|caption`; returns `None` unless the text starts with
`MEDIA|` and splitting on `|` at most three times yields at least four
fields; the caption is everything after the third `|`. -/
def parse_media_draft (draft_text : Str) : Option MediaInfo :=
  if mediaSentinel.isPrefixOf draft_text then
    match splitAtMost '|' 3 draft_text with
    | _ :: t :: f :: c :: _ => some ⟨t, f, c⟩
    | _ => none
  else none

/-- The encoder: `f"MEDIA|{media_type}|{file_id}|{caption}"` as written in
`process_save_media_draft` (line 1539) and `cb_genpost_save` (line 1130). -/
def encode_media_draft (media_type file_id caption : Str) : Str :=
  mediaSentinel ++ media_type ++ ('|' :: file_id) ++ ('|' :: caption)

/-- The closed set of media kinds produced by the save handlers
(photo / video / video_note / document / voice). -/
def recognizedKinds : List Str :=
  [("photo".toList), ("video".toList), ("video_note".toList),
   ("document".toList), ("voice".toList)]

-- ---------- Durable store (src/bot/db.py, src/bot/main.py lines 170-261) ----------

/-- A row of the `users` table. -/
structure UserRec where
  id : Nat
  telegram_id : Nat
  deriving DecidableEq, Repr

/-- A row of the `drafts` table. `created_at` is the server-assigned
creation timestamp, modelled as a natural number. -/
structure DraftRec where
  id : Nat
  user_id : Nat
  idea_text : Str
  draft_text : Str
  created_at : Nat
  deriving DecidableEq, Repr

/-- The relational store: the two tables plus primary-key counters and a
clock standing for the database server's `now()`. -/
structure Store where
  users : List UserRec
  drafts : List DraftRec
  next_user_id : Nat
  next_draft_id : Nat
  clock : Nat
  deriving DecidableEq, Repr

/-- `get_or_create_user` (lines 170-185): look the telegram id up in
`users`; create the row if absent.  Returns the users-table primary key. -/
def get_or_create_user (st : Store) (telegram_id : Nat) : Store × Nat :=
  match st.users.find? (fun u => u.telegram_id == telegram_id) with
  | some u => (st, u.id)
  | none =>
    ({ st with
        users := st.users ++ [⟨st.next_user_id, telegram_id⟩],
        next_user_id := st.next_user_id + 1 },
     st.next_user_id)

/-- `create_draft` (lines 188-197): lazily provision the user, then insert
a draft row; the store assigns the id and the creation timestamp. -/
def create_draft (st : Store) (telegram_id : Nat) (idea_text draft_text : Str) : Store :=
  let p := get_or_create_user st telegram_id
  let st1 := p.1
  { st1 with
      drafts := st1.drafts ++ [⟨st1.next_draft_id, p.2, idea_text, draft_text, st1.clock⟩],
      next_draft_id := st1.next_draft_id + 1,
      clock := st1.clock + 1 }

/-- The rows of `drafts` owned by the user with primary key `uid`, in
table (insertion) order. -/
def user_drafts_of (st : Store) (uid : Nat) : List DraftRec :=
  st.drafts.filter (fun d => d.user_id == uid)

/-- Adjacent-pairs check that a list of drafts is ordered by
`created_at` ascending. -/
def sortedByCreated : List DraftRec → Bool
  | [] => true
  | [_] => true
  | a :: b :: rest => a.created_at ≤ b.created_at && sortedByCreated (b :: rest)

/-- The result set admissible for the query of `get_user_drafts_full`
(lines 216-228): `ORDER BY created_at ASC` constrains the output to be
some permutation of the user's rows that is sorted by `created_at`; the
relative order of rows with equal `created_at` is not fixed by the query,
so the output is specified relationally. -/
def isValidListing (st : Store) (uid : Nat) (out : List DraftRec) : Prop :=
  List.Perm out (user_drafts_of st uid) ∧ sortedByCreated out = true

/-- Stable insertion by `created_at` (a row is placed after all existing
rows with the same timestamp). -/
def insertByCreated (d : DraftRec) : List DraftRec → List DraftRec
  | [] => [d]
  | e :: es =>
    if d.created_at < e.created_at then d :: e :: es
    else e :: insertByCreated d es

/-- Stable sort by `created_at`, one admissible result order of the SQL
query (ties keep insertion order). -/
def sortByCreated (l : List DraftRec) : List DraftRec :=
  l.foldr insertByCreated []

/-- `get_user_drafts_full` (lines 216-228): lazily provision the user and
return all their drafts ordered by creation time ascending.  The
executable definition returns the stable order; see `isValidListing` for
the set of orders the SQL query admits. -/
def get_user_drafts_full (st : Store) (telegram_id : Nat) : Store × List DraftRec :=
  let p := get_or_create_user st telegram_id
  (p.1, sortByCreated (user_drafts_of p.1 p.2))

/-- `get_user_draft_by_id` (lines 231-241): one draft by id, scoped to the
owning user; `None` when absent or not owned. -/
def get_user_draft_by_id (st : Store) (telegram_id draft_id : Nat) : Store × Option DraftRec :=
  let p := get_or_create_user st telegram_id
  (p.1, p.1.drafts.find? (fun d => d.id == draft_id && d.user_id == p.2))

/-- `delete_user_draft` (lines 244-261): delete one draft by id, scoped to
the owning user; `false` when absent or not owned. -/
def delete_user_draft (st : Store) (telegram_id draft_id : Nat) : Store × Bool :=
  let p := get_or_create_user st telegram_id
  match p.1.drafts.find? (fun d => d.id == draft_id && d.user_id == p.2) with
  | none => (p.1, false)
  | some _ =>
    ({ p.1 with drafts := p.1.drafts.eraseP (fun d => d.id == draft_id && d.user_id == p.2) },
     true)

-- ---------- Session context and inbound messages ----------

/-- The FSM state tags declared in src/bot/main.py (lines 49-116), plus
the distinguished idle state (aiogram's `state = None`). -/
inductive BotState where
  | idle
  | planProfile | planOwnIdea | planGeneratedPost
  | draftConfirm | draftIdea | draftTitle | draftBody | draftConclusion
  | deleteWaitingForId | deleteWaitingForConfirm
  | editWaitingForId | editWaitingForText
  | sendWaitingForNumber | sendWaitingForChannel
  | saveMediaWaitingForMedia
  | genpostEditing | genpostWaitingForAiEdit | genpostWaitingForMedia
  | rewriteWaitingForText
  | hashtagsWaitingForText
  | variantsWaitingForText
  | planWaitingForTopic | planWaitingForPeriod
  | templateChoosing | templateFilling
  | styleWaitingForExample | styleWaitingForTopic
  | searchWaitingForQuery
  deriving DecidableEq, Repr

/-- The `attached_media` scratchpad dictionary: keys `type` and `file_id`. -/
structure MediaRef where
  mtype : Str
  file_id : Str
  deriving DecidableEq, Repr

/-- The per-user FSM scratchpad (`state.get_data()` / `update_data`), as a
record of the keys the handlers of src/bot/main.py store; an absent key is
`none`.  `user_telegram_id` stands for the `_user_telegram_id` key. -/
structure Scratch where
  idea : Option Str := none
  title : Option Str := none
  body : Option Str := none
  draft_id : Option Nat := none
  draft_number : Option Nat := none
  draft_text : Option Str := none
  last_generated_idea : Option Str := none
  last_generated_post : Option Str := none
  attached_media : Option MediaRef := none
  idea_for_draft : Option Str := none
  genpost_text : Option Str := none
  genpost_media : Option MediaRef := none
  user_telegram_id : Option Nat := none
  deriving DecidableEq, Repr

/-- The per-user session context: current state tag plus scratchpad. -/
structure Session where
  state : BotState
  data : Scratch
  deriving DecidableEq, Repr

/-- `state.clear()`: idle state, empty scratchpad. -/
def clearedSession : Session := ⟨.idle, {}⟩

/-- The media kinds a Telegram message can carry (the cases the save
handlers inspect, in their checking order). -/
inductive MediaKind where
  | photo | video | video_note | document | voice
  deriving DecidableEq, Repr

/-- The string the handlers store for each media kind. -/
def MediaKind.asStr : MediaKind → Str
  | .photo => ("photo".toList)
  | .video => ("video".toList)
  | .video_note => ("video_note".toList)
  | .document => ("document".toList)
  | .voice => ("voice".toList)

/-- An inbound chat message: optional text, optional caption, optional
media payload (kind and file id), and the sender's telegram id. -/
structure Msg where
  text : Option Str := none
  caption : Option Str := none
  media : Option (MediaKind × Str) := none
  from_user : Nat := 0
  deriving DecidableEq, Repr

/-- `get_user_id_from_context` (lines 149-165): the scratchpad's
`_user_telegram_id` when set, otherwise the sender's telegram id. -/
def user_of (m : Msg) (sess : Session) : Nat :=
  sess.data.user_telegram_id.getD m.from_user

/-- The bot's replies, one tag per distinct `answer` call of the modelled
handlers (the Russian message texts are transport payload and are
abstracted to their identity). -/
inductive Reply where
  | cancelAck                       -- cmd_cancel: dialog cancelled
  | pressDeleteButtonsHint          -- process_delete_draft_confirm hint
  | numberMustBeDigits              -- delete flow: non-numeric position
  | draftNumberNotFound             -- delete flow: out-of-range position
  | confirmDeletePrompt (draft_number : Nat)  -- delete flow: confirm keyboard
  | plusPrompt                      -- draft builder: confirm step re-prompt
  | ideaStepPrompt                  -- draft builder: step 1 prompt
  | emptyIdeaPrompt
  | titleStepPrompt
  | emptyTitlePrompt
  | bodyStepPrompt
  | emptyBodyPrompt
  | conclusionStepPrompt
  | draftSaved (payload : Str)      -- finalize_draft: saved confirmation
  | cannotSkipNow                   -- cb_draft_skip_conclusion outside step
  | genpostAiEditPrompt             -- cb_genpost_ai_edit prompt
  | genpostAttachPrompt             -- cb_genpost_attach_media prompt
  | editCancelledShowPost (post : Str)    -- genpost ai-edit sub-state cancel
  | attachCancelledShowPost (post : Str)  -- genpost media sub-state cancel
  | emptyEditRequestPrompt
  | noPostFound
  | aiEditFailed
  | updatedPost (post : Str)
  | noMediaSeen
  | postWithMedia (post : Str)
  | emptyTextPrompt                 -- edit flow: empty replacement text
  | cannotIdentifyDraft
  | draftVanished
  | draftUpdated (new_text : Str)
  deriving DecidableEq, Repr

/-- The result of running one handler: updated store, updated session,
replies sent. -/
structure StepResult where
  store : Store
  session : Session
  replies : List Reply
  deriving DecidableEq, Repr

-- ---------- Handlers (src/bot/main.py) ----------

/-- `cmd_cancel` (lines 2250-2260): clear the session and acknowledge. -/
def cmd_cancel (st : Store) (_sess : Session) (_m : Msg) : StepResult :=
  ⟨st, clearedSession, [.cancelAck]⟩

/-- `process_delete_draft_confirm` (lines 2240-2245): any free-text
message while awaiting the delete confirmation only produces the
"press the buttons" hint; state and scratchpad are untouched. -/
def process_delete_draft_confirm (st : Store) (sess : Session) (_m : Msg) : StepResult :=
  ⟨st, sess, [.pressDeleteButtonsHint]⟩

/-- `process_delete_draft_id` (lines 2187-2237): explicit `/cancel`
escape; non-numeric input re-prompts; the position is resolved against a
fresh full listing; out-of-range re-prompts; otherwise the resolved
durable id and the shown position go to the scratchpad and the state
advances to the confirmation step. -/
def process_delete_draft_id (st : Store) (sess : Session) (m : Msg) : StepResult :=
  let text := strip (m.text.getD [])
  if lower text = ("/cancel".toList) then cmd_cancel st sess m
  else if !(isDigits text) then ⟨st, sess, [.numberMustBeDigits]⟩
  else
    let draft_number := natOfDigits text
    let p := get_user_drafts_full st (user_of m sess)
    if h : draft_number < 1 ∨ p.2.length < draft_number then
      ⟨p.1, sess, [.draftNumberNotFound]⟩
    else
      let d := p.2.get ⟨draft_number - 1, by omega⟩
      ⟨p.1,
       ⟨.deleteWaitingForConfirm,
        { sess.data with draft_id := some d.id, draft_number := some draft_number }⟩,
       [.confirmDeletePrompt draft_number]⟩

/-- Payload assembly of `finalize_draft` (lines 903-927): a literal `"-"`
conclusion means no conclusion; non-empty sections are labelled and joined
with blank lines; an empty section is omitted together with its label. -/
def finalize_payload (idea title body conclusion0 : Str) : Str :=
  let conclusion := if conclusion0 = [('-' : Char)] then [] else conclusion0
  let parts :=
    (if idea.isEmpty then [] else [("Идея: ".toList) ++ strip idea]) ++
    (if title.isEmpty then [] else [("Заголовок: ".toList) ++ strip title]) ++
    (if body.isEmpty then [] else [("Текст:\n".toList) ++ strip body]) ++
    (if conclusion.isEmpty then [] else [("Заключение:\n".toList) ++ strip conclusion])
  strip (List.intercalate ("\n\n".toList) parts)

/-- `finalize_draft` (lines 903-948): assemble the payload from the
scratchpad and the conclusion, persist it via `create_draft`, answer with
the assembled draft, and clear the session. -/
def finalize_draft (st : Store) (sess : Session) (m : Msg) (conclusion_text : Str) : StepResult :=
  let idea := sess.data.idea.getD []
  let payload :=
    finalize_payload idea (sess.data.title.getD []) (sess.data.body.getD []) conclusion_text
  let st1 := create_draft st (user_of m sess) idea payload
  ⟨st1, clearedSession, [.draftSaved payload]⟩

/-- `process_draft_confirm` (lines 1910-1934): only the literal `+`
starts the builder; anything else re-prompts without advancing. -/
def process_draft_confirm (st : Store) (sess : Session) (m : Msg) : StepResult :=
  let text := strip (m.text.getD [])
  if text ≠ [('+' : Char)] then ⟨st, sess, [.plusPrompt]⟩
  else ⟨st, ⟨.draftIdea, sess.data⟩, [.ideaStepPrompt]⟩

/-- `process_draft_idea` (lines 1937-1960): empty input re-prompts;
otherwise store the idea and advance to the title step. -/
def process_draft_idea (st : Store) (sess : Session) (m : Msg) : StepResult :=
  let idea_text := strip (m.text.getD [])
  if idea_text.isEmpty then ⟨st, sess, [.emptyIdeaPrompt]⟩
  else ⟨st, ⟨.draftTitle, { sess.data with idea := some idea_text }⟩, [.titleStepPrompt]⟩

/-- `process_draft_title` (lines 1963-1986). -/
def process_draft_title (st : Store) (sess : Session) (m : Msg) : StepResult :=
  let title_text := strip (m.text.getD [])
  if title_text.isEmpty then ⟨st, sess, [.emptyTitlePrompt]⟩
  else ⟨st, ⟨.draftBody, { sess.data with title := some title_text }⟩, [.bodyStepPrompt]⟩

/-- `process_draft_body` (lines 1989-2018). -/
def process_draft_body (st : Store) (sess : Session) (m : Msg) : StepResult :=
  let body_text := strip (m.text.getD [])
  if body_text.isEmpty then ⟨st, sess, [.emptyBodyPrompt]⟩
  else ⟨st, ⟨.draftConclusion, { sess.data with body := some body_text }⟩, [.conclusionStepPrompt]⟩

/-- `process_draft_conclusion` (lines 2021-2028): the stripped text —
empty or not — is passed straight to `finalize_draft`. -/
def process_draft_conclusion (st : Store) (sess : Session) (m : Msg) : StepResult :=
  finalize_draft st sess m (strip (m.text.getD []))

/-- `cb_draft_skip_conclusion` (lines 998-1025): only valid on the
conclusion step; calls `finalize_draft` with an empty conclusion. -/
def cb_draft_skip_conclusion (st : Store) (sess : Session) (m : Msg) : StepResult :=
  if sess.state ≠ .draftConclusion then ⟨st, sess, [.cannotSkipNow]⟩
  else finalize_draft st sess m []

/-- `process_edit_draft_text` (lines 864-898): empty replacement text
re-prompts; a missing scratchpad id or a vanished draft clears the
session; otherwise the fetched row's `draft_text` is replaced wholly by
the stripped text and the session is cleared. -/
def process_edit_draft_text (st : Store) (sess : Session) (m : Msg) : StepResult :=
  let new_text := strip (m.text.getD [])
  if new_text.isEmpty then ⟨st, sess, [.emptyTextPrompt]⟩
  else
    match sess.data.draft_id with
    | none => ⟨st, clearedSession, [.cannotIdentifyDraft]⟩
    | some did =>
      match st.drafts.find? (fun d => d.id == did) with
      | none => ⟨st, clearedSession, [.draftVanished]⟩
      | some _ =>
        ⟨{ st with
            drafts := st.drafts.map (fun d =>
              if d.id == did then { d with draft_text := new_text } else d) },
         clearedSession, [.draftUpdated new_text]⟩

/-- `cb_genpost_ai_edit` (lines 1203-1212): enter the AI-edit sub-state;
the scratchpad is untouched. -/
def cb_genpost_ai_edit (st : Store) (sess : Session) : StepResult :=
  ⟨st, ⟨.genpostWaitingForAiEdit, sess.data⟩, [.genpostAiEditPrompt]⟩

/-- `cb_genpost_attach_media` (lines 1349-1358): enter the attach-media
sub-state; the scratchpad is untouched. -/
def cb_genpost_attach_media (st : Store) (sess : Session) : StepResult :=
  ⟨st, ⟨.genpostWaitingForMedia, sess.data⟩, [.genpostAttachPrompt]⟩

/-- `process_genpost_ai_edit` (lines 1361-1413): `/cancel` returns to the
`editing` state with the scratchpad untouched, redisplaying the current
post; otherwise the AI (`edit_post_with_ai`, an external call modelled by
the oracle `aiEdit`; an empty result is a failure) rewrites the post. -/
def process_genpost_ai_edit (aiEdit : Str → Str → Str) (st : Store) (sess : Session) (m : Msg) :
    StepResult :=
  if lower (strip (m.text.getD [])) = ("/cancel".toList) then
    ⟨st, ⟨.genpostEditing, sess.data⟩,
     [.editCancelledShowPost (sess.data.last_generated_post.getD [])]⟩
  else
    let edit_request := strip (m.text.getD [])
    if edit_request.isEmpty then ⟨st, sess, [.emptyEditRequestPrompt]⟩
    else
      let post_text := sess.data.last_generated_post.getD []
      if post_text.isEmpty then ⟨st, clearedSession, [.noPostFound]⟩
      else
        let edited := aiEdit post_text edit_request
        if edited.isEmpty then ⟨st, ⟨.genpostEditing, sess.data⟩, [.aiEditFailed]⟩
        else
          ⟨st, ⟨.genpostEditing, { sess.data with last_generated_post := some edited }⟩,
           [.updatedPost edited]⟩

/-- `process_genpost_attach_media` (lines 1415-1465): `/cancel` returns to
the `editing` state with the scratchpad untouched, redisplaying the
current post; a message without media re-prompts; otherwise the media
reference is stored and the state returns to `editing`. -/
def process_genpost_attach_media (st : Store) (sess : Session) (m : Msg) : StepResult :=
  if lower (strip (m.text.getD [])) = ("/cancel".toList) then
    ⟨st, ⟨.genpostEditing, sess.data⟩,
     [.attachCancelledShowPost (sess.data.last_generated_post.getD [])]⟩
  else
    match m.media with
    | none => ⟨st, sess, [.noMediaSeen]⟩
    | some (k, fid) =>
      ⟨st,
       ⟨.genpostEditing, { sess.data with attached_media := some ⟨k.asStr, fid⟩ }⟩,
       [.postWithMedia (sess.data.last_generated_post.getD [])]⟩

-- ---------- Dispatch router ----------

/-- The message-handler identities of src/bot/main.py, named after the
registered functions. -/
inductive HandlerId where
  | cmdStart | cmdHelp
  | btnCreatePost | btnMyDraftsMenu | btnAiTools | btnPlanning | btnSearch | btnHelp
  | cmdSendDraft | processSendDraftNumber | processSendDraftChannel
  | cmdEditDraft | processEditDraftId | processEditDraftText
  | processGenpostAiEdit | processGenpostAttachMedia
  | cmdSaveMediaDraft | processSaveMediaDraft
  | cmdIdea | processProfile | processOwnIdeaForIdea
  | cmdDraft | processDraftConfirm | processDraftIdea | processDraftTitle
  | processDraftBody | processDraftConclusion
  | cmdMyDrafts
  | cmdDeleteDraft | processDeleteDraftId | processDeleteDraftConfirm
  | cmdCancel
  | cmdRewrite | processRewriteText
  | cmdHashtags | processHashtagsText
  | cmdVariants | processVariantsText
  | cmdPlan | processPlanTopic
  | cmdTemplates
  | cmdStyle | processStyleExample | processStyleTopic
  | cmdSearch
  | cmdMedia
  | processSearchQuery
  deriving DecidableEq, Repr

/-- The filter kinds attached to message handlers in src/bot/main.py:
aiogram `Command(...)`, an exact-text lambda (reply-keyboard buttons), or
an FSM state filter. -/
inductive MsgFilter where
  | command (name : Str)
  | textEquals (s : Str)
  | inState (target : BotState)
  deriving DecidableEq, Repr

/-- aiogram's `Command(name)` filter: a text message starting with `/`
whose command part (up to a space or `@`) equals `name`. -/
def matchesCommand (name : Str) (m : Msg) : Bool :=
  match m.text with
  | none => false
  | some t =>
    match t with
    | '/' :: rest => rest.takeWhile (fun c => !(c == ' ' || c == '@')) == name
    | _ => false

/-- Whether a registered filter accepts a message in a given state. -/
def filterMatches (f : MsgFilter) (s : BotState) (m : Msg) : Bool :=
  match f with
  | .command name => matchesCommand name m
  | .textEquals t => m.text == some t
  | .inState target => s == target

/-- The message handlers of src/bot/main.py in registration (file) order,
each with its filter.  aiogram evaluates them in this order and invokes
the first match, so this list IS the router's priority. -/
def messageHandlers : List (MsgFilter × HandlerId) :=
  [(.command ("start".toList), .cmdStart),                          -- line 266
   (.command ("help".toList), .cmdHelp),                            -- line 369
   (.textEquals ("📝 Создать пост".toList), .btnCreatePost),        -- line 543
   (.textEquals ("📂 Черновики".toList), .btnMyDraftsMenu),         -- line 552
   (.textEquals ("🤖 ИИ-инструменты".toList), .btnAiTools),         -- line 561
   (.textEquals ("📅 Планирование".toList), .btnPlanning),          -- line 570
   (.textEquals ("🔍 Поиск".toList), .btnSearch),                   -- line 579
   (.textEquals ("❓ Помощь".toList), .btnHelp),                    -- line 585
   (.command ("send_draft".toList), .cmdSendDraft),                 -- line 648
   (.inState .sendWaitingForNumber, .processSendDraftNumber),       -- line 664
   (.inState .sendWaitingForChannel, .processSendDraftChannel),     -- line 698
   (.command ("edit_draft".toList), .cmdEditDraft),                 -- line 816
   (.inState .editWaitingForId, .processEditDraftId),               -- line 830
   (.inState .editWaitingForText, .processEditDraftText),           -- line 864
   (.inState .genpostWaitingForAiEdit, .processGenpostAiEdit),      -- line 1361
   (.inState .genpostWaitingForMedia, .processGenpostAttachMedia),  -- line 1415
   (.command ("save_media_draft".toList), .cmdSaveMediaDraft),      -- line 1489
   (.inState .saveMediaWaitingForMedia, .processSaveMediaDraft),    -- line 1503
   (.command ("idea".toList), .cmdIdea),                            -- line 1785
   (.inState .planProfile, .processProfile),                        -- line 1815
   (.inState .planOwnIdea, .processOwnIdeaForIdea),                 -- line 1846
   (.command ("draft".toList), .cmdDraft),                          -- line 1895
   (.inState .draftConfirm, .processDraftConfirm),                  -- line 1910
   (.inState .draftIdea, .processDraftIdea),                        -- line 1937
   (.inState .draftTitle, .processDraftTitle),                      -- line 1963
   (.inState .draftBody, .processDraftBody),                        -- line 1989
   (.inState .draftConclusion, .processDraftConclusion),            -- line 2021
   (.command ("my_drafts".toList), .cmdMyDrafts),                   -- line 2131
   (.command ("delete_draft".toList), .cmdDeleteDraft),             -- line 2173
   (.inState .deleteWaitingForId, .processDeleteDraftId),           -- line 2187
   (.inState .deleteWaitingForConfirm, .processDeleteDraftConfirm), -- line 2240
   (.command ("cancel".toList), .cmdCancel),                        -- line 2250
   (.command ("rewrite".toList), .cmdRewrite),                      -- line 2447
   (.inState .rewriteWaitingForText, .processRewriteText),          -- line 2459
   (.command ("hashtags".toList), .cmdHashtags),                    -- line 2502
   (.inState .hashtagsWaitingForText, .processHashtagsText),        -- line 2513
   (.command ("variants".toList), .cmdVariants),                    -- line 2544
   (.inState .variantsWaitingForText, .processVariantsText),        -- line 2556
   (.command ("plan".toList), .cmdPlan),                            -- line 2587
   (.inState .planWaitingForTopic, .processPlanTopic),              -- line 2599
   (.command ("templates".toList), .cmdTemplates),                  -- line 2661
   (.command ("style".toList), .cmdStyle),                          -- line 2731
   (.inState .styleWaitingForExample, .processStyleExample),        -- line 2742
   (.inState .styleWaitingForTopic, .processStyleTopic),            -- line 2763
   (.command ("search".toList), .cmdSearch),                        -- line 2809
   (.command ("media".toList), .cmdMedia),                          -- line 2896
   (.inState .searchWaitingForQuery, .processSearchQuery)]          -- line 3007

/-- The dispatcher: the first registered handler whose filter accepts the
message in the current state; `none` means the event is dropped. -/
def selectHandler (s : BotState) (m : Msg) : Option HandlerId :=
  (messageHandlers.find? (fun p => filterMatches p.1 s m)).map (fun p => p.2)

-- ---------- Pagination (src/bot/main.py lines 121-122, 2058-2077, 2823-2847) ----------

/-- `DRAFTS_PER_PAGE` (line 121). -/
def DRAFTS_PER_PAGE : Nat := 5

/-- `MEDIA_PER_PAGE` (line 122). -/
def MEDIA_PER_PAGE : Nat := 3

/-- The clamp `page = max(0, min(page, total_pages - 1))` applied by both
renderers before slicing. -/
def clampPage (page : Int) (total_pages : Nat) : Nat :=
  (max 0 (min page ((total_pages : Int) - 1))).toNat

/-- The shared pagination core of `show_drafts_page` and
`show_media_page`: early-return on an empty row set; otherwise
`total_pages = ceil(total / per_page)`,
`page = max(0, min(page, total_pages - 1))`, and the Python slice
`rows[page * per_page : min(page * per_page + per_page, total)]`. -/
def paginate {α : Type} (per_page : Nat) (rows : List α) (page : Int) : List α :=
  if rows.isEmpty then []
  else
    let total := rows.length
    let total_pages := (total + per_page - 1) / per_page
    let p := clampPage page total_pages
    let start_idx := p * per_page
    let end_idx := min (start_idx + per_page) total
    (rows.take end_idx).drop start_idx

/-- The page of drafts rendered by `show_drafts_page` (lines 2058-2077). -/
def show_drafts_page_slice (rows : List DraftRec) (page : Int) : List DraftRec :=
  paginate DRAFTS_PER_PAGE rows page

/-- The media rows `show_media_page` works on (lines 2825-2830): the rows
of the full listing whose payload decodes as a media draft. -/
def media_rows_of (rows : List DraftRec) : List (DraftRec × MediaInfo) :=
  rows.filterMap (fun r => (parse_media_draft r.draft_text).map (fun i => (r, i)))

/-- The page of media drafts rendered by `show_media_page`
(lines 2823-2847). -/
def show_media_page_slice (rows : List DraftRec) (page : Int) : List (DraftRec × MediaInfo) :=
  paginate MEDIA_PER_PAGE (media_rows_of rows) page

/-- Whether `pat` occurs as a contiguous segment of `s` (used to state
which labelled sections a persisted payload contains). -/
def containsList (pat : Str) : Str → Bool
  | [] => pat.isEmpty
  | c :: rest => pat.isPrefixOf (c :: rest) || containsList pat rest

-- ---------- Concrete inputs used by witnesses and counterexamples ----------

/-- The message `/cancel` (sender telegram id 1). -/
def cancelMsg : Msg := { text := some ("/cancel".toList), from_user := 1 }

/-- A message whose text is empty. -/
def emptyTextMsg : Msg := { text := some [], from_user := 1 }

/-- The message `-` (the "no conclusion" escape). -/
def dashMsg : Msg := { text := some [('-' : Char)], from_user := 1 }

/-- A store with no rows at all. -/
def emptyStore : Store := ⟨[], [], 1, 1, 0⟩

/-- A store with one user (telegram id 100) owning two drafts created at
the same instant. -/
def tieStore : Store :=
  ⟨[⟨1, 100⟩], [⟨1, 1, [], [], 5⟩, ⟨2, 1, [], [], 5⟩], 2, 3, 6⟩

/-- A store with users A (telegram id 100) and B (telegram id 200), where
A owns the single draft (id 1). -/
def twoUserStore : Store := ⟨[⟨1, 100⟩, ⟨2, 200⟩], [⟨1, 1, [], [], 0⟩], 3, 2, 1⟩

/-- A store with one user (telegram id 100) owning one draft (id 1,
payload `old`). -/
def oneDraftStore : Store := ⟨[⟨1, 100⟩], [⟨1, 1, [], ("old".toList), 0⟩], 2, 2, 1⟩

/-- A draft-builder session on the conclusion step with
idea=`Launch`, title=`v2`, body=`details` accumulated. -/
def launchSess : Session :=
  ⟨.draftConclusion,
   { idea := some ("Launch".toList), title := some ("v2".toList),
     body := some ("details".toList) }⟩

-- ---------- Helper lemmas ----------

lemma splitFirst_append_sep (c : Char) (l r : Str) (h : c ∉ l) :
    splitFirst c (l ++ c :: r) = some (l, r) := by
  induction l with
  | nil => simp [splitFirst]
  | cons a as ih =>
    have hne : ¬(a = c) := fun hac => h (by simp [hac])
    have hnotin : c ∉ as := fun hm => h (List.mem_cons_of_mem _ hm)
    simp [splitFirst, hne, ih hnotin]

lemma isPrefixOf_append_self (l t : Str) : l.isPrefixOf (l ++ t) = true := by
  induction l with
  | nil => simp [List.isPrefixOf]
  | cons a as ih => simp [List.isPrefixOf, ih]

lemma parse_encode_of_no_sep (k r c : Str) (hk : ('|' : Char) ∉ k) (hr : ('|' : Char) ∉ r) :
    parse_media_draft (encode_media_draft k r c) = some ⟨k, r, c⟩ := by
  have h0 : mediaSentinel = ("MEDIA".toList) ++ ['|'] := by decide
  have hM : ('|' : Char) ∉ ("MEDIA".toList) := by decide
  have henc : encode_media_draft k r c
      = ("MEDIA".toList) ++ '|' :: (k ++ '|' :: (r ++ '|' :: c)) := by
    unfold encode_media_draft
    rw [h0]
    simp [List.append_assoc]
  have hpre : mediaSentinel.isPrefixOf (encode_media_draft k r c) = true := by
    rw [henc, h0]
    have : ("MEDIA".toList) ++ '|' :: (k ++ '|' :: (r ++ '|' :: c))
        = (("MEDIA".toList) ++ ['|']) ++ (k ++ '|' :: (r ++ '|' :: c)) := by
      simp [List.append_assoc]
    rw [this]
    exact isPrefixOf_append_self _ _
  have hsplit : splitAtMost '|' 3 (encode_media_draft k r c)
      = [("MEDIA".toList), k, r, c] := by
    rw [henc]
    show splitAtMost '|' (2 + 1) _ = _
    rw [splitAtMost, splitFirst_append_sep '|' _ _ hM]
    show _ :: splitAtMost '|' (1 + 1) _ = _
    rw [splitAtMost, splitFirst_append_sep '|' _ _ hk]
    show _ :: _ :: splitAtMost '|' (0 + 1) _ = _
    rw [splitAtMost, splitFirst_append_sep '|' _ _ hr]
    rfl
  unfold parse_media_draft
  rw [hpre, hsplit]
  rfl

lemma parse_no_sentinel (t : Str) (h : mediaSentinel.isPrefixOf t = false) :
    parse_media_draft t = none := by
  unfold parse_media_draft
  rw [h]
  rfl

lemma parse_short (t : Str) (h : (splitAtMost '|' 3 t).length < 4) :
    parse_media_draft t = none := by
  unfold parse_media_draft
  cases hp : mediaSentinel.isPrefixOf t with
  | false => rfl
  | true =>
    rcases hsp : splitAtMost '|' 3 t with _ | ⟨a, _ | ⟨b, _ | ⟨c, _ | ⟨d, rest⟩⟩⟩⟩ <;>
      · rw [hsp] at h
        simp_all
        try omega

-- ---------- Claim C1 ----------

/-- C1 (amended): media-codec round trip.  For every recognized kind, every
external reference that does not itself contain the delimiter `|`, and
every caption — including the empty caption and captions containing `|` —
decoding the encoded string returns exactly the original fields; and
decoding returns none when the `MEDIA|` sentinel is absent or when fewer
than four fields are present.  (The restriction on the reference is forced
by `c1_counterexample`: a reference containing `|` shifts the extra
material into the caption.) -/
theorem c1_media_codec_round_trip :
    (∀ k r c : Str, k ∈ recognizedKinds → ('|' : Char) ∉ r →
       parse_media_draft (encode_media_draft k r c) = some ⟨k, r, c⟩) ∧
    (∀ t : Str, mediaSentinel.isPrefixOf t = false → parse_media_draft t = none) ∧
    (∀ t : Str, (splitAtMost '|' 3 t).length < 4 → parse_media_draft t = none) := by
  refine ⟨fun k r c hk hr => ?_, parse_no_sentinel, parse_short⟩
  have hknosep : ('|' : Char) ∉ k := by
    have : ∀ k0 ∈ recognizedKinds, ('|' : Char) ∉ k0 := by decide
    exact this k hk
  exact parse_encode_of_no_sep k r c hknosep hr

/-- C1 counterexample: with the external reference `a|b` (which contains
the delimiter), decoding the encoded string does not return the original
fields — the reference is truncated at its first `|` and the rest leaks
into the caption. -/
theorem c1_counterexample :
    parse_media_draft (encode_media_draft ("photo".toList) ("a|b".toList) []) =
      some ⟨("photo".toList), ("a".toList), ("b|".toList)⟩ ∧
    parse_media_draft (encode_media_draft ("photo".toList) ("a|b".toList) []) ≠
      some ⟨("photo".toList), ("a|b".toList), []⟩ := by
  constructor
  · rfl
  · decide

/-- C1 witness: the round trip at kind `photo`, reference `FILE123`, and a
caption containing the delimiter. -/
theorem c1_witness :
    parse_media_draft (encode_media_draft ("photo".toList) ("FILE123".toList) ("a|b|c".toList)) =
      some ⟨("photo".toList), ("FILE123".toList), ("a|b|c".toList)⟩ :=
  c1_media_codec_round_trip.1 _ _ _ (by decide) (by decide)

-- ---------- Claim C2 ----------

/-- C2 (the code contradicts the claim): the router dispatches in
registration order and the state-bound free-text handlers for
`DeleteDraftForm.waiting_for_confirm` (line 2240) and
`EditDraftForm.waiting_for_text` (line 864) are registered before
`Command("cancel")` (line 2250), so `/cancel` sent in those states is
consumed as flow input: in `waiting_for_confirm` it only produces the
"press the buttons" hint with the session unchanged (no transition to
idle, no cancellation acknowledgement), and in `waiting_for_text` it is
saved as the draft's new payload text.  Only a session with no
earlier-registered state handler (e.g. idle) reaches `cmd_cancel`. -/
theorem c2_cancel_swallowed_mid_flow :
    selectHandler .deleteWaitingForConfirm cancelMsg = some .processDeleteDraftConfirm ∧
    (∀ (st : Store) (data : Scratch),
       process_delete_draft_confirm st ⟨.deleteWaitingForConfirm, data⟩ cancelMsg
         = ⟨st, ⟨.deleteWaitingForConfirm, data⟩, [.pressDeleteButtonsHint]⟩ ∧
       BotState.deleteWaitingForConfirm ≠ BotState.idle ∧
       Reply.cancelAck ∉ (process_delete_draft_confirm st
         ⟨.deleteWaitingForConfirm, data⟩ cancelMsg).replies) ∧
    selectHandler .editWaitingForText cancelMsg = some .processEditDraftText ∧
    (process_edit_draft_text oneDraftStore ⟨.editWaitingForText, { draft_id := some 1 }⟩ cancelMsg
       = ⟨⟨[⟨1, 100⟩], [⟨1, 1, [], ("/cancel".toList), 0⟩], 2, 2, 1⟩,
          clearedSession, [.draftUpdated ("/cancel".toList)]⟩) ∧
    selectHandler .idle cancelMsg = some .cmdCancel := by
  refine ⟨by decide, fun st data => ⟨rfl, by decide, by simp [process_delete_draft_confirm]⟩,
    by decide, by decide, by decide⟩

-- ---------- Claim C7 ----------

/-- C7: entering the AI-edit (or attach-media) sub-state of the
generated-post editing flow and then sending `/cancel` returns the session
to the `editing` state with the scratchpad — in particular the current
post text and any attached media reference — exactly as it was, instead of
clearing the context; and the router does dispatch `/cancel` in those
sub-states to the sub-state handlers that implement this. -/
theorem c7_genpost_substate_cancel_preserves :
    selectHandler .genpostWaitingForAiEdit cancelMsg = some .processGenpostAiEdit ∧
    selectHandler .genpostWaitingForMedia cancelMsg = some .processGenpostAttachMedia ∧
    (∀ (ai : Str → Str → Str) (st : Store) (sess : Session),
       process_genpost_ai_edit ai
         (cb_genpost_ai_edit st sess).store (cb_genpost_ai_edit st sess).session cancelMsg
         = ⟨st, ⟨.genpostEditing, sess.data⟩,
            [.editCancelledShowPost (sess.data.last_generated_post.getD [])]⟩) ∧
    (∀ (st : Store) (sess : Session),
       process_genpost_attach_media
         (cb_genpost_attach_media st sess).store (cb_genpost_attach_media st sess).session cancelMsg
         = ⟨st, ⟨.genpostEditing, sess.data⟩,
            [.attachCancelledShowPost (sess.data.last_generated_post.getD [])]⟩) :=
  ⟨by decide, by decide, fun ai st sess => rfl, fun st sess => rfl⟩

-- ---------- Claim C3 ----------

/-- C3 counterexample: at the Draft Builder's conclusion step an empty
text message is NOT re-prompted — `process_draft_conclusion` passes the
(empty) stripped text straight to `finalize_draft`, which persists a draft
and clears the session, so the state tag changes from `conclusion` to
idle and the scratchpad is erased. -/
theorem c3_counterexample :
    selectHandler .draftConclusion emptyTextMsg = some .processDraftConclusion ∧
    (process_draft_conclusion emptyStore launchSess emptyTextMsg).session = clearedSession ∧
    launchSess.state ≠ clearedSession.state ∧
    (process_draft_conclusion emptyStore launchSess emptyTextMsg).store.drafts.length = 1 := by
  refine ⟨by decide, rfl, by decide, rfl⟩

/-- C3 (amended): invalid or empty input re-prompts, leaves the state tag
unchanged and leaves the scratchpad unmutated at the delete flow's
position-input step (non-numeric input, and out-of-range positions) and at
the Draft Builder's confirm, idea, title and body steps; the conclusion
step is the exception the counterexample forces: any input there —
including empty — is passed to the finalize action (an empty conclusion
behaves like the skip escape). -/
theorem c3_invalid_input_reprompts :
    (∀ (st : Store) (data : Scratch) (m : Msg),
       lower (strip (m.text.getD [])) ≠ ("/cancel".toList) →
       isDigits (strip (m.text.getD [])) = false →
       process_delete_draft_id st ⟨.deleteWaitingForId, data⟩ m
         = ⟨st, ⟨.deleteWaitingForId, data⟩, [.numberMustBeDigits]⟩) ∧
    (∀ (st : Store) (data : Scratch) (m : Msg),
       lower (strip (m.text.getD [])) ≠ ("/cancel".toList) →
       isDigits (strip (m.text.getD [])) = true →
       (natOfDigits (strip (m.text.getD [])) < 1 ∨
        (get_user_drafts_full st (user_of m ⟨.deleteWaitingForId, data⟩)).2.length
          < natOfDigits (strip (m.text.getD []))) →
       (process_delete_draft_id st ⟨.deleteWaitingForId, data⟩ m).session
           = ⟨.deleteWaitingForId, data⟩ ∧
       (process_delete_draft_id st ⟨.deleteWaitingForId, data⟩ m).replies
           = [.draftNumberNotFound]) ∧
    (∀ (st : Store) (data : Scratch) (m : Msg), strip (m.text.getD []) = [] →
       process_draft_idea st ⟨.draftIdea, data⟩ m
         = ⟨st, ⟨.draftIdea, data⟩, [.emptyIdeaPrompt]⟩ ∧
       process_draft_title st ⟨.draftTitle, data⟩ m
         = ⟨st, ⟨.draftTitle, data⟩, [.emptyTitlePrompt]⟩ ∧
       process_draft_body st ⟨.draftBody, data⟩ m
         = ⟨st, ⟨.draftBody, data⟩, [.emptyBodyPrompt]⟩) ∧
    (∀ (st : Store) (data : Scratch) (m : Msg),
       strip (m.text.getD []) ≠ [('+' : Char)] →
       process_draft_confirm st ⟨.draftConfirm, data⟩ m
         = ⟨st, ⟨.draftConfirm, data⟩, [.plusPrompt]⟩) ∧
    (∀ (st : Store) (sess : Session) (m : Msg), strip (m.text.getD []) = [] →
       process_draft_conclusion st sess m = finalize_draft st sess m []) := by
  refine ⟨?_, ?_, ?_, ?_, ?_⟩
  · intro st data m h1 h2
    simp [process_delete_draft_id, h1, h2]
    intro hc
    exact absurd hc h1
  · intro st data m h1 h2 h3
    rw [process_delete_draft_id]
    simp only [h1, if_false, h2, Bool.not_true, Bool.false_eq_true, if_neg]
    rw [dif_pos h3]
    exact ⟨rfl, rfl⟩
  · intro st data m h
    refine ⟨?_, ?_, ?_⟩ <;> simp [process_draft_idea, process_draft_title, process_draft_body, h]
  · intro st data m h
    simp [process_draft_confirm, h]
  · intro st sess m h
    rw [process_draft_conclusion, h]

/-- C3 witness: non-numeric input at the delete position step, an
out-of-range position at the delete position step, and an empty message at
the body step, all at concrete inputs. -/
theorem c3_witness :
    (process_delete_draft_id emptyStore ⟨.deleteWaitingForId, {}⟩
       { text := some ("abc".toList), from_user := 1 }
       = ⟨emptyStore, ⟨.deleteWaitingForId, {}⟩, [.numberMustBeDigits]⟩) ∧
    ((process_delete_draft_id emptyStore ⟨.deleteWaitingForId, {}⟩
        { text := some ("2".toList), from_user := 1 }).session
       = ⟨.deleteWaitingForId, ({} : Scratch)⟩) ∧
    (process_draft_body emptyStore ⟨.draftBody, {}⟩ emptyTextMsg
       = ⟨emptyStore, ⟨.draftBody, {}⟩, [.emptyBodyPrompt]⟩) :=
  ⟨c3_invalid_input_reprompts.1 _ _ _ (by decide) (by decide),
   (c3_invalid_input_reprompts.2.1 _ _ _ (by decide) (by decide) (by decide)).1,
   (c3_invalid_input_reprompts.2.2.1 _ _ _ (by decide)).2.2⟩

-- ---------- Claim C5 ----------

lemma finalize_payload_dash (i t b : Str) :
    finalize_payload i t b [('-' : Char)] = finalize_payload i t b [] := rfl

lemma finalize_draft_dash (st : Store) (sess : Session) (m : Msg) :
    finalize_draft st sess m [('-' : Char)] = finalize_draft st sess m [] := rfl

/-- C5: with idea=`Launch`, title=`v2`, body=`details` accumulated,
submitting the literal conclusion `-` persists a payload containing the
idea, title and body sections but no conclusion section; the free-text `-`
escape and the dedicated skip trigger invoke the identical finalize logic
with an empty conclusion and produce identical results; and finalize
always clears the session context. -/
theorem c5_skip_conclusion :
    (∀ i t b : Str, finalize_payload i t b [('-' : Char)] = finalize_payload i t b []) ∧
    (finalize_payload ("Launch".toList) ("v2".toList) ("details".toList) [('-' : Char)]
       = ("Идея: Launch\n\nЗаголовок: v2\n\nТекст:\ndetails".toList)) ∧
    (containsList ("Заключение".toList)
       (finalize_payload ("Launch".toList) ("v2".toList) ("details".toList) [('-' : Char)])
       = false) ∧
    (containsList ("Идея: Launch".toList)
       (finalize_payload ("Launch".toList) ("v2".toList) ("details".toList) [('-' : Char)])
         = true ∧
     containsList ("Заголовок: v2".toList)
       (finalize_payload ("Launch".toList) ("v2".toList) ("details".toList) [('-' : Char)])
         = true ∧
     containsList ("Текст:\ndetails".toList)
       (finalize_payload ("Launch".toList) ("v2".toList) ("details".toList) [('-' : Char)])
         = true) ∧
    (∀ (st : Store) (data : Scratch) (m : Msg),
       strip (m.text.getD []) = [('-' : Char)] →
       process_draft_conclusion st ⟨.draftConclusion, data⟩ m
         = cb_draft_skip_conclusion st ⟨.draftConclusion, data⟩ m) ∧
    (∀ (st : Store) (sess : Session) (m : Msg) (c : Str),
       (finalize_draft st sess m c).session = clearedSession) := by
  refine ⟨finalize_payload_dash, by decide, by decide, ⟨by decide, by decide, by decide⟩,
    ?_, fun st sess m c => rfl⟩
  intro st data m h
  rw [process_draft_conclusion, h, cb_draft_skip_conclusion]
  rw [if_neg (by simp)]
  exact finalize_draft_dash _ _ _

/-- C5 witness: the `-` message and the skip trigger, fired on the
conclusion step with idea=`Launch`, title=`v2`, body=`details`, produce
the identical result. -/
theorem c5_witness :
    process_draft_conclusion emptyStore launchSess dashMsg
      = cb_draft_skip_conclusion emptyStore launchSess dashMsg :=
  c5_skip_conclusion.2.2.2.2.1 _ _ _ (by decide)

-- ---------- Claim C4 ----------

/-- C4: owner scoping without information leak.  In a well-formed store
(distinct user primary keys below the counter, draft primary key unique
for the draft in question), if user A (telegram id `tA`) owns draft `d`
and `tB` is a different telegram identity, then `delete_user_draft`
invoked by B with `d.id` returns `false` and leaves the drafts table
unchanged, `get_user_draft_by_id` invoked by B with `d.id` returns
not-found — exactly the behaviour both operations have on an id that does
not exist at all, for which delete also returns `false` with the drafts
unchanged. -/
theorem c4_owner_scoping_no_leak
    (st : Store) (tA tB : Nat) (uA : UserRec) (d : DraftRec)
    (huA : uA ∈ st.users) (htA : uA.telegram_id = tA)
    (hd : d ∈ st.drafts) (hown : d.user_id = uA.id)
    (hAB : tA ≠ tB)
    (hlt : ∀ u ∈ st.users, u.id < st.next_user_id)
    (hinj : ∀ u ∈ st.users, ∀ v ∈ st.users, u.id = v.id → u = v)
    (hdid : ∀ e ∈ st.drafts, e.id = d.id → e = d) :
    (delete_user_draft st tB d.id).2 = false ∧
    (delete_user_draft st tB d.id).1.drafts = st.drafts ∧
    (get_user_draft_by_id st tB d.id).2 = none ∧
    (∀ j : Nat, (∀ e ∈ st.drafts, e.id ≠ j) →
       (delete_user_draft st tB j).2 = false ∧
       (delete_user_draft st tB j).1.drafts = st.drafts) := by
  have hB : (get_or_create_user st tB).1.drafts = st.drafts ∧
      (get_or_create_user st tB).2 ≠ uA.id := by
    unfold get_or_create_user
    cases hfind : st.users.find? (fun u => u.telegram_id == tB) with
    | none =>
      refine ⟨rfl, ?_⟩
      have hgoal : st.next_user_id ≠ uA.id := by
        intro h
        have := hlt uA huA
        omega
      exact hgoal
    | some uB =>
      refine ⟨rfl, ?_⟩
      intro h
      have huB : uB ∈ st.users := List.mem_of_find?_eq_some hfind
      have htB : uB.telegram_id = tB := by
        have := List.find?_some hfind
        simpa using this
      have : uB = uA := hinj uB huB uA huA h
      rw [this, htA] at htB
      exact hAB htB
  have hpred : ∀ e ∈ (get_or_create_user st tB).1.drafts,
      (e.id == d.id && e.user_id == (get_or_create_user st tB).2) = false := by
    rw [hB.1]
    intro e he
    by_cases h1 : e.id = d.id
    · have he' : e = d := hdid e he h1
      subst he'
      simp only [beq_self_eq_true, Bool.true_and, hown]
      simp only [beq_eq_false_iff_ne, ne_eq]
      exact fun hh => hB.2 hh.symm
    · simp [h1]
  have hfind2 : (get_or_create_user st tB).1.drafts.find?
      (fun e => e.id == d.id && e.user_id == (get_or_create_user st tB).2) = none := by
    apply List.find?_eq_none.mpr
    intro e he
    simp [hpred e he]
  refine ⟨?_, ?_, ?_, ?_⟩
  · rw [delete_user_draft, hfind2]
  · rw [delete_user_draft, hfind2]
    exact hB.1
  · rw [get_user_draft_by_id, hfind2]
  · intro j hj
    have hpredj : ∀ e ∈ (get_or_create_user st tB).1.drafts,
        (e.id == j && e.user_id == (get_or_create_user st tB).2) = false := by
      rw [hB.1]
      intro e he
      simp [hj e he]
    have hfindj : (get_or_create_user st tB).1.drafts.find?
        (fun e => e.id == j && e.user_id == (get_or_create_user st tB).2) = none := by
      apply List.find?_eq_none.mpr
      intro e he
      simp [hpredj e he]
    constructor
    · rw [delete_user_draft, hfindj]
    · rw [delete_user_draft, hfindj]
      exact hB.1

/-- C4 witness: in the two-user store where A (telegram 100) owns draft 1,
user B (telegram 200) can neither delete nor fetch draft 1, and deleting
the nonexistent draft 9 also returns false with the drafts unchanged. -/
theorem c4_witness :
    (delete_user_draft twoUserStore 200 1).2 = false ∧
    (delete_user_draft twoUserStore 200 1).1.drafts = twoUserStore.drafts ∧
    (get_user_draft_by_id twoUserStore 200 1).2 = none ∧
    ((delete_user_draft twoUserStore 200 9).2 = false ∧
     (delete_user_draft twoUserStore 200 9).1.drafts = twoUserStore.drafts) := by
  have h := c4_owner_scoping_no_leak twoUserStore 100 200 ⟨1, 100⟩ ⟨1, 1, [], [], 0⟩
    (by decide) rfl (by decide) rfl (by decide) (by decide) (by decide) (by decide)
  exact ⟨h.1, h.2.1, h.2.2.1, h.2.2.2 9 (by decide)⟩

-- ---------- Claim C6 ----------

/-- C6 counterexample: the edit flow's terminal handler strips the
replacement text.  With the non-empty replacement `" "` (one space)
nothing is replaced at all — the handler re-prompts and leaves draft,
session and store unchanged; and with the replacement `" x "` the stored
payload is the stripped `"x"`, not the submitted text — so "for every
non-empty replacement text t the terminal action replaces d's payload
wholly with t" fails as stated. -/
theorem c6_counterexample :
    (process_edit_draft_text oneDraftStore ⟨.editWaitingForText, { draft_id := some 1 }⟩
       { text := some (" ".toList), from_user := 100 }
       = ⟨oneDraftStore, ⟨.editWaitingForText, { draft_id := some 1 }⟩, [.emptyTextPrompt]⟩) ∧
    ((process_edit_draft_text oneDraftStore ⟨.editWaitingForText, { draft_id := some 1 }⟩
        { text := some (" x ".toList), from_user := 100 }).store.drafts
       = [⟨1, 1, [], ("x".toList), 0⟩]) ∧
    ("x".toList) ≠ (" x ".toList) := by
  refine ⟨by decide, by decide, by decide⟩

/-- C6 (amended): for every stored draft `d` and every replacement text
`t` that is non-blank after stripping surrounding whitespace, the edit
flow's terminal action replaces `d`'s payload text wholly with the
stripped `t` (a full replacement, not a merge), while `d`'s durable id,
idea summary, creation timestamp and owner are unchanged and every other
stored draft (of any user) is unchanged; the session is cleared
afterwards.  (Whitespace-only input instead re-prompts, as the
counterexample shows.) -/
theorem c6_edit_full_replacement
    (st : Store) (d : DraftRec) (t : Str) (data : Scratch) (m : Msg)
    (hd : d ∈ st.drafts)
    (htext : m.text = some t) (hne : strip t ≠ [])
    (hsid : data.draft_id = some d.id) :
    (process_edit_draft_text st ⟨.editWaitingForText, data⟩ m).store.drafts
      = st.drafts.map (fun e => if e.id == d.id then { e with draft_text := strip t } else e) ∧
    (process_edit_draft_text st ⟨.editWaitingForText, data⟩ m).session = clearedSession ∧
    ({ d with draft_text := strip t } : DraftRec)
      ∈ (process_edit_draft_text st ⟨.editWaitingForText, data⟩ m).store.drafts ∧
    (∀ e ∈ st.drafts, e.id ≠ d.id →
       e ∈ (process_edit_draft_text st ⟨.editWaitingForText, data⟩ m).store.drafts) := by
  have hne' : (strip t).isEmpty = false := by
    cases hst : strip t with
    | nil => exact absurd hst hne
    | cons a as => rfl
  obtain ⟨e0, he0⟩ : ∃ e0, st.drafts.find? (fun e => e.id == d.id) = some e0 := by
    have hs : (st.drafts.find? (fun e => e.id == d.id)).isSome := by
      rw [List.find?_isSome]
      exact ⟨d, hd, by simp⟩
    exact Option.isSome_iff_exists.mp hs
  have hres : process_edit_draft_text st ⟨.editWaitingForText, data⟩ m
      = ⟨{ st with drafts := st.drafts.map (fun e =>
             if e.id == d.id then { e with draft_text := strip t } else e) },
         clearedSession, [.draftUpdated (strip t)]⟩ := by
    rw [process_edit_draft_text, htext]
    show (if (strip t).isEmpty = true then _ else _) = _
    rw [hne']
    simp only [Bool.false_eq_true, if_false, hsid, he0, Option.getD_some]
  refine ⟨by rw [hres], by rw [hres], ?_, ?_⟩
  · rw [hres]
    exact List.mem_map.mpr ⟨d, hd, by simp⟩
  · intro e he hne2
    rw [hres]
    refine List.mem_map.mpr ⟨e, he, ?_⟩
    simp [hne2]

/-- C6 witness: replacing the payload of draft 1 with `new text` in the
one-draft store. -/
theorem c6_witness :
    (process_edit_draft_text oneDraftStore ⟨.editWaitingForText, { draft_id := some 1 }⟩
        { text := some ("new text".toList), from_user := 100 }).store.drafts
      = oneDraftStore.drafts.map (fun e =>
          if e.id == 1 then { e with draft_text := strip ("new text".toList) } else e) ∧
    (process_edit_draft_text oneDraftStore ⟨.editWaitingForText, { draft_id := some 1 }⟩
        { text := some ("new text".toList), from_user := 100 }).session = clearedSession :=
  ⟨(c6_edit_full_replacement oneDraftStore ⟨1, 1, [], ("old".toList), 0⟩ ("new text".toList)
      { draft_id := some 1 } { text := some ("new text".toList), from_user := 100 }
      (by decide) rfl (by decide) rfl).1,
   (c6_edit_full_replacement oneDraftStore ⟨1, 1, [], ("old".toList), 0⟩ ("new text".toList)
      { draft_id := some 1 } { text := some ("new text".toList), from_user := 100 }
      (by decide) rfl (by decide) rfl).2.1⟩

-- ---------- Claim C8 ----------

/-- C8 (the code contradicts the claim): the query of
`get_user_drafts_full` orders by `created_at` ascending with no secondary
sort key, so for a user owning two drafts with equal creation timestamps
BOTH orders of the two rows satisfy everything the query requires
(`isValidListing`): the result sequence is not a function of the draft set
alone, and the database is free to return either order on different
invocations.  The claim's "ties are broken deterministically, for example
by a secondary sort on durable id" has no counterpart in the code. -/
theorem c8_listing_ties_not_deterministic :
    isValidListing tieStore 1 [⟨1, 1, [], [], 5⟩, ⟨2, 1, [], [], 5⟩] ∧
    isValidListing tieStore 1 [⟨2, 1, [], [], 5⟩, ⟨1, 1, [], [], 5⟩] ∧
    ([⟨1, 1, [], [], 5⟩, ⟨2, 1, [], [], 5⟩] : List DraftRec)
      ≠ [⟨2, 1, [], [], 5⟩, ⟨1, 1, [], [], 5⟩] := by
  have hu : user_drafts_of tieStore 1 = [⟨1, 1, [], [], 5⟩, ⟨2, 1, [], [], 5⟩] := rfl
  refine ⟨⟨?_, rfl⟩, ⟨?_, rfl⟩, by decide⟩
  · rw [hu]
  · rw [hu]
    exact List.Perm.swap _ _ _

-- ---------- Claim C9 ----------

/-- C9: lazy user provisioning extends to the read operations.  For a
chat identity with no user row, in a well-formed store (user primary keys
below the counter, every draft owned by an existing user), both
`get_user_drafts_full` and `get_user_draft_by_id` create the user row as a
side effect — afterwards a row with that telegram id exists — and return
an empty listing / not-found respectively. -/
theorem c9_lazy_provisioning_reads
    (st : Store) (t : Nat) (j : Nat)
    (habs : ∀ u ∈ st.users, u.telegram_id ≠ t)
    (hids : ∀ u ∈ st.users, u.id < st.next_user_id)
    (hown : ∀ d ∈ st.drafts, ∃ u ∈ st.users, d.user_id = u.id) :
    ((get_user_drafts_full st t).1.users.any (fun u => u.telegram_id == t) = true) ∧
    (get_user_drafts_full st t).2 = [] ∧
    ((get_user_draft_by_id st t j).1.users.any (fun u => u.telegram_id == t) = true) ∧
    (get_user_draft_by_id st t j).2 = none := by
  have hfind : st.users.find? (fun u => u.telegram_id == t) = none := by
    apply List.find?_eq_none.mpr
    intro u hu
    simp [habs u hu]
  have hgoc : get_or_create_user st t
      = ({ st with
            users := st.users ++ [⟨st.next_user_id, t⟩],
            next_user_id := st.next_user_id + 1 }, st.next_user_id) := by
    rw [get_or_create_user, hfind]
  have hany : (st.users ++ [(⟨st.next_user_id, t⟩ : UserRec)]).any
      (fun u => u.telegram_id == t) = true := by
    simp [List.any_append]
  have hfil : user_drafts_of
      { st with
          users := st.users ++ [⟨st.next_user_id, t⟩],
          next_user_id := st.next_user_id + 1 } st.next_user_id = [] := by
    apply List.filter_eq_nil_iff.mpr
    intro dr hdr
    obtain ⟨u, hu, he⟩ := hown dr hdr
    have := hids u hu
    simp [he]
    omega
  have hfindnone : ∀ ps : List DraftRec, ps = st.drafts →
      ps.find? (fun dr => dr.id == j && dr.user_id == st.next_user_id) = none := by
    intro ps hps
    subst hps
    apply List.find?_eq_none.mpr
    intro dr hdr
    obtain ⟨u, hu, he⟩ := hown dr hdr
    have := hids u hu
    simp [he]
    omega
  refine ⟨?_, ?_, ?_, ?_⟩
  · rw [get_user_drafts_full, hgoc]
    exact hany
  · rw [get_user_drafts_full, hgoc]
    show sortByCreated (user_drafts_of _ _) = []
    rw [hfil]
    rfl
  · rw [get_user_draft_by_id, hgoc]
    exact hany
  · rw [get_user_draft_by_id, hgoc]
    exact hfindnone _ rfl

/-- C9 witness: the empty store with unknown telegram identity 7 and
draft id 3. -/
theorem c9_witness :
    ((get_user_drafts_full emptyStore 7).1.users.any (fun u => u.telegram_id == 7) = true) ∧
    (get_user_drafts_full emptyStore 7).2 = [] ∧
    ((get_user_draft_by_id emptyStore 7 3).1.users.any (fun u => u.telegram_id == 7) = true) ∧
    (get_user_draft_by_id emptyStore 7 3).2 = none :=
  c9_lazy_provisioning_reads emptyStore 7 3 (by decide) (by decide) (by decide)

-- ---------- Claim C10 ----------

lemma clampPage_le (page : Int) (tp : Nat) (h : 1 ≤ tp) : clampPage page tp ≤ tp - 1 := by
  unfold clampPage
  have h1 : max 0 (min page ((tp : Int) - 1)) ≤ (tp : Int) - 1 :=
    max_le (by omega) (min_le_right _ _)
  omega

lemma paginate_spec {α : Type} (k : Nat) (hk : 0 < k) (rows : List α) (h : rows ≠ [])
    (page : Int) :
    paginate k rows page ≠ [] ∧ (paginate k rows page).length ≤ k ∧
    List.Sublist (paginate k rows page) rows := by
  have hne : rows.isEmpty = false := by
    cases rows with
    | nil => exact absurd rfl h
    | cons a as => rfl
  have hn : 0 < rows.length := List.length_pos.mpr h
  set n := rows.length with hn_def
  set tp := (n + k - 1) / k with htp_def
  have htp1 : 1 ≤ tp := by
    rw [htp_def]
    rw [Nat.le_div_iff_mul_le hk]
    omega
  have htpk : tp * k ≤ n + k - 1 := by
    rw [htp_def]
    exact Nat.div_mul_le_self _ _
  set p := clampPage page tp with hp_def
  have hple : p ≤ tp - 1 := clampPage_le page tp htp1
  have hmul : p * k ≤ (tp - 1) * k := Nat.mul_le_mul_right _ hple
  have hsucc : (tp - 1) * k + k = tp * k := by
    have h2 : tp - 1 + 1 = tp := by omega
    calc (tp - 1) * k + k = (tp - 1 + 1) * k := by rw [Nat.succ_mul]
    _ = tp * k := by rw [h2]
  have hstart : p * k < n := by omega
  have heq : paginate k rows page = (rows.take (min (p * k + k) n)).drop (p * k) := by
    rw [paginate, if_neg (by simp [hne])]
  have hlen : (paginate k rows page).length = min (p * k + k) n - p * k := by
    rw [heq, List.length_drop, List.length_take]
    have hmin : min (min (p * k + k) n) n = min (p * k + k) n := by omega
    rw [hmin]
  refine ⟨?_, ?_, ?_⟩
  · apply List.ne_nil_of_length_pos
    rw [hlen]
    omega
  · rw [hlen]
    omega
  · rw [heq]
    exact (List.drop_sublist _ _).trans (List.take_sublist _ _)

/-- C10: whenever the user has at least one draft (respectively at least
one media draft), the draft-list and media-gallery renderers clamp any
integer page request before slicing, so the rendered slice is a
contiguous, non-empty sub-slice of the row sequence of at most one page's
length — no page request causes out-of-range indexing or an empty page. -/
theorem c10_pagination_clamped :
    (∀ (rows : List DraftRec) (page : Int), rows ≠ [] →
       show_drafts_page_slice rows page ≠ [] ∧
       (show_drafts_page_slice rows page).length ≤ DRAFTS_PER_PAGE ∧
       List.Sublist (show_drafts_page_slice rows page) rows) ∧
    (∀ (rows : List DraftRec) (page : Int), media_rows_of rows ≠ [] →
       show_media_page_slice rows page ≠ [] ∧
       (show_media_page_slice rows page).length ≤ MEDIA_PER_PAGE ∧
       List.Sublist (show_media_page_slice rows page) (media_rows_of rows)) := by
  constructor
  · intro rows page h
    exact paginate_spec DRAFTS_PER_PAGE (by decide) rows h page
  · intro rows page h
    exact paginate_spec MEDIA_PER_PAGE (by decide) (media_rows_of rows) h page

/-- C10 witness: a one-draft list survives the page requests `-5` and
`100`, and a one-media-draft list survives the page request `7`. -/
theorem c10_witness :
    show_drafts_page_slice [⟨1, 1, [], [], 0⟩] (-5) ≠ [] ∧
    show_drafts_page_slice [⟨1, 1, [], [], 0⟩] 100 ≠ [] ∧
    show_media_page_slice [⟨1, 1, [], ("MEDIA|photo|f|c".toList), 0⟩] 7 ≠ [] :=
  ⟨(c10_pagination_clamped.1 _ (-5) (by decide)).1,
   (c10_pagination_clamped.1 _ 100 (by decide)).1,
   (c10_pagination_clamped.2 _ 7 (by decide)).1⟩

end TgContent
